import Mathlib

/-!
Shallow embedding of the smart-recipe-generator recommendation core
(`src/app/api/recommendations/route.ts`), the rating upsert-and-recompute
endpoint (the ratings `POST` route) and the Mongoose document shapes
(`models/Recipe.js`, `models/Rating.js`, `models/Favorite.js`).

Modelling conventions:
* JavaScript numbers are modelled as `ℚ`.  The initial `Infinity` /
  `-Infinity` values of the nutrition bands are modelled by `Option ℚ`
  with `none` standing for the not-yet-updated state; the code updates
  `min` and `max` together, and a band whose endpoints are not both
  finite numbers never passes the `range > 0` guard in the scorer, so
  the encoding is behaviour-preserving.
* A JavaScript `Map` is modelled as an insertion-ordered association
  list `List (String × ℚ)`; `Map.set` updates an existing key in place
  and otherwise appends.
* JavaScript truthiness tests on numbers (`if (calories)`) become
  `≠ 0`, on optional strings (`if (recipe.cuisine)`) become a `some`
  match plus `≠ ""`.
* `Math.log` is not a rational function; the scorer is parametrised by
  the function `lg : ℚ → ℚ` used for the popularity term.  Every
  statement about the popularity term only assumes of `lg` what
  `Math.log` satisfies on the relevant domain.
* `Array.prototype.sort` (stable in modern engines) and the Mongo
  two-key sort are modelled by a stable insertion sort `sortBy`.
-/

namespace SmartRecipe

/-- The embedded nutrition record (`models/Recipe.js`, `NutritionSchema`):
four numeric fields, each defaulting to 0. -/
structure Nutrition where
  calories : ℚ
  protein : ℚ
  fat : ℚ
  carbs : ℚ
deriving DecidableEq, Repr

/-- The embedded recipe document (`models/Recipe.js` plus the rolling
aggregates `avgRating`/`ratingsCount` written by the ratings route; an
absent aggregate is modelled as 0, which is JS-falsy exactly like
`undefined` in every guard of the scorer). -/
structure Recipe where
  id : String
  ingredients : List String
  cuisine : Option String
  difficulty : Option String
  tags : List String
  nutrition : Option Nutrition
  avgRating : ℚ
  ratingsCount : ℚ
deriving DecidableEq, Repr

/-- The embedded rating document (`models/Rating.js`): one user's score
for one recipe. -/
structure RatingDoc where
  userId : String
  recipeId : String
  rating : ℚ
deriving DecidableEq, Repr

/-- The embedded favorite document (`models/Favorite.js`). -/
structure FavoriteDoc where
  userId : String
  recipeId : String
deriving DecidableEq, Repr

/-- Insertion-ordered association list standing for a JS `Map`:
`Map.set` overwrites an existing key in place, otherwise appends. -/
def mapSet : List (String × ℚ) → String → ℚ → List (String × ℚ)
  | [], k, v => [(k, v)]
  | (k2, v2) :: rest, k, v =>
      if k2 = k then (k, v) :: rest else (k2, v2) :: mapSet rest k v

/-- `Map.get`, returning `none` when the key is absent. -/
def mapGet : List (String × ℚ) → String → Option ℚ
  | [], _ => none
  | (k2, v2) :: rest, k => if k2 = k then some v2 else mapGet rest k

/-- `Map.get(k) || 0`: lookup with default 0, as the route reads its
frequency maps. -/
def mapGetD (m : List (String × ℚ)) (k : String) : ℚ :=
  (mapGet m k).getD 0

/-- `Map.has`. -/
def mapHas (m : List (String × ℚ)) (k : String) : Bool :=
  (mapGet m k).isSome

/-- One accumulation step of the profile builder on a frequency map:
`map.set(key, (map.get(key) || 0) + weight)`. -/
def mapAdd (m : List (String × ℚ)) (k : String) (w : ℚ) : List (String × ℚ) :=
  mapSet m k (mapGetD m k + w)

/-- Accumulate `w` into the map once per element of `keys` (the
`forEach` loops over a recipe's ingredient and tag lists). -/
def mapAddAll (m : List (String × ℚ)) (keys : List String) (w : ℚ) :
    List (String × ℚ) :=
  keys.foldl (fun acc k => mapAdd acc k w) m

/-- One nutrition band of the preference profile
(`{ min: Infinity, max: -Infinity, avg: 0 }` initially); `none`
endpoints encode the initial infinities. -/
structure NutritionBand where
  min : Option ℚ
  max : Option ℚ
  avg : ℚ
deriving DecidableEq, Repr

/-- The four nutrition bands of a profile. -/
structure NutritionRanges where
  calories : NutritionBand
  protein : NutritionBand
  carbs : NutritionBand
  fat : NutritionBand
deriving DecidableEq, Repr

/-- The ephemeral preference profile built per recommendation request. -/
structure PreferenceProfile where
  ingredients : List (String × ℚ)
  cuisines : List (String × ℚ)
  difficulties : List (String × ℚ)
  tags : List (String × ℚ)
  nutritionRanges : NutritionRanges
deriving DecidableEq, Repr

/-- The profile value the builder starts from. -/
def emptyProfile : PreferenceProfile where
  ingredients := []
  cuisines := []
  difficulties := []
  tags := []
  nutritionRanges :=
    { calories := { min := none, max := none, avg := 0 }
      protein := { min := none, max := none, avg := 0 }
      carbs := { min := none, max := none, avg := 0 }
      fat := { min := none, max := none, avg := 0 } }

/-- `Math.min(band.min, v)` / `Math.max(band.max, v)` applied together,
with `none` playing `Infinity` / `-Infinity`. -/
def bandUpdate (b : NutritionBand) (v : ℚ) : NutritionBand where
  min := some (match b.min with | none => v | some m => min m v)
  max := some (match b.max with | none => v | some M => max M v)
  avg := b.avg

/-- Fold state of `buildPreferenceProfile`: the profile under
construction plus the local running sums and the recipe-with-nutrition
counter. -/
structure BuildAcc where
  profile : PreferenceProfile
  totalCalories : ℚ
  totalProtein : ℚ
  totalCarbs : ℚ
  totalFat : ℚ
  recipeCount : ℕ
deriving DecidableEq, Repr

/-- The weight an interacted recipe contributes:
`const rating = userRatings.find(r => String(r.recipeId) === String(recipe._id));`
`const weight = rating ? rating.rating : 3;`. -/
def recipeWeight (userRatings : List RatingDoc) (recipe : Recipe) : ℚ :=
  match userRatings.find? (fun rt => rt.recipeId = recipe.id) with
  | some rt => rt.rating
  | none => 3

/-- Body of the `preferredRecipes.forEach` loop of
`buildPreferenceProfile`. -/
def processRecipe (userRatings : List RatingDoc) (acc : BuildAcc)
    (recipe : Recipe) : BuildAcc :=
  let weight := recipeWeight userRatings recipe
  let p := acc.profile
  let ing := mapAddAll p.ingredients recipe.ingredients weight
  let cui := match recipe.cuisine with
    | some c => if c ≠ "" then mapAdd p.cuisines c weight else p.cuisines
    | none => p.cuisines
  let dif := match recipe.difficulty with
    | some d => if d ≠ "" then mapAdd p.difficulties d weight else p.difficulties
    | none => p.difficulties
  let tg := mapAddAll p.tags recipe.tags weight
  match recipe.nutrition with
  | none =>
      { acc with profile :=
          { p with ingredients := ing, cuisines := cui, difficulties := dif,
                   tags := tg } }
  | some n =>
      let nr := p.nutritionRanges
      let cal := if n.calories ≠ 0 then bandUpdate nr.calories n.calories
                 else nr.calories
      let tc := if n.calories ≠ 0 then acc.totalCalories + n.calories
                else acc.totalCalories
      let pro := if n.protein ≠ 0 then bandUpdate nr.protein n.protein
                 else nr.protein
      let tp := if n.protein ≠ 0 then acc.totalProtein + n.protein
                else acc.totalProtein
      let car := if n.carbs ≠ 0 then bandUpdate nr.carbs n.carbs
                 else nr.carbs
      let tcb := if n.carbs ≠ 0 then acc.totalCarbs + n.carbs
                 else acc.totalCarbs
      let ft := if n.fat ≠ 0 then bandUpdate nr.fat n.fat else nr.fat
      let tf := if n.fat ≠ 0 then acc.totalFat + n.fat else acc.totalFat
      { profile :=
          { ingredients := ing, cuisines := cui, difficulties := dif,
            tags := tg,
            nutritionRanges :=
              { calories := cal, protein := pro, carbs := car, fat := ft } }
        totalCalories := tc
        totalProtein := tp
        totalCarbs := tcb
        totalFat := tf
        recipeCount := acc.recipeCount + 1 }

/-- `buildPreferenceProfile` from the route: fold over the interacted
recipes, then write the averages when at least one recipe carried a
nutrition record. -/
def buildPreferenceProfile (preferredRecipes : List Recipe)
    (userRatings : List RatingDoc) : PreferenceProfile :=
  let acc := preferredRecipes.foldl (processRecipe userRatings)
    { profile := emptyProfile, totalCalories := 0, totalProtein := 0,
      totalCarbs := 0, totalFat := 0, recipeCount := 0 }
  if acc.recipeCount > 0 then
    let nr := acc.profile.nutritionRanges
    { acc.profile with nutritionRanges :=
        { calories := { nr.calories with avg := acc.totalCalories / acc.recipeCount }
          protein := { nr.protein with avg := acc.totalProtein / acc.recipeCount }
          carbs := { nr.carbs with avg := acc.totalCarbs / acc.recipeCount }
          fat := { nr.fat with avg := acc.totalFat / acc.recipeCount } } }
  else acc.profile

/-- `calculateRecipeScore` from the route, with `lg` standing for
`Math.log`.  Each `score +=` of the source is one `let score :=` step. -/
def calculateRecipeScore (lg : ℚ → ℚ) (recipe : Recipe)
    (profile : PreferenceProfile) : ℚ :=
  let score : ℚ := 0
  let score := recipe.ingredients.foldl
    (fun s ing => s + mapGetD profile.ingredients ing * 2) score
  let score := match recipe.cuisine with
    | some c =>
        if c ≠ "" ∧ mapHas profile.cuisines c then
          score + mapGetD profile.cuisines c * (1.5 : ℚ)
        else score
    | none => score
  let score := match recipe.difficulty with
    | some d =>
        if d ≠ "" ∧ mapHas profile.difficulties d then
          score + mapGetD profile.difficulties d * (1.2 : ℚ)
        else score
    | none => score
  let score := recipe.tags.foldl
    (fun s tag => s + mapGetD profile.tags tag * (1.3 : ℚ)) score
  let score := match recipe.nutrition with
    | none => score
    | some n =>
        let score :=
          if n.calories ≠ 0 ∧ profile.nutritionRanges.calories.avg > 0 then
            match profile.nutritionRanges.calories.min,
                  profile.nutritionRanges.calories.max with
            | some mn, some mx =>
                let calDiff := |n.calories - profile.nutritionRanges.calories.avg|
                let calRange := mx - mn
                if calRange > 0 then
                  score + max 0 (5 - calDiff / calRange * 5)
                else score
            | _, _ => score
          else score
        if n.protein ≠ 0 ∧ profile.nutritionRanges.protein.avg > 0 then
          match profile.nutritionRanges.protein.min,
                profile.nutritionRanges.protein.max with
          | some mn, some mx =>
              let proDiff := |n.protein - profile.nutritionRanges.protein.avg|
              let proRange := mx - mn
              if proRange > 0 then
                score + max 0 (3 - proDiff / proRange * 3)
              else score
          | _, _ => score
        else score
  if recipe.avgRating ≠ 0 ∧ recipe.ratingsCount ≠ 0 then
    score + recipe.avgRating / 5 * lg (recipe.ratingsCount + 1) * (0.5 : ℚ)
  else score

/-- Stable insertion: `x` is placed after every already-sorted element
that strictly precedes it, so tied elements keep their input order —
the behaviour of the engine's stable `Array.prototype.sort` and of a
deterministic reading of the Mongo two-key sort. -/
def insertBy (lt : α → α → Bool) (x : α) : List α → List α
  | [] => [x]
  | y :: ys => if lt y x then y :: insertBy lt x ys else x :: y :: ys

/-- Stable insertion sort by the strict precedence test `lt`. -/
def sortBy (lt : α → α → Bool) : List α → List α
  | [] => []
  | x :: xs => insertBy lt x (sortBy lt xs)

/-- Strict precedence for `.sort({ avgRating: -1, ratingsCount: -1 })`:
higher average first, rating count breaking ties. -/
def trendingBefore (a b : Recipe) : Bool :=
  b.avgRating < a.avgRating ∨
    (a.avgRating = b.avgRating ∧ b.ratingsCount < a.ratingsCount)

/-- The cold-start result: all recipes in trending order. -/
def sortTrending (recipes : List Recipe) : List Recipe :=
  sortBy trendingBefore recipes

/-- Strict precedence for `.sort((a, b) => b.score - a.score)`. -/
def scoreBefore (a b : Recipe × ℚ) : Bool :=
  b.2 < a.2

/-- The persisted collections the routes read and write. -/
structure DB where
  ratings : List RatingDoc
  favorites : List FavoriteDoc
  recipes : List Recipe
deriving DecidableEq, Repr

/-- The recipe ids the user has interacted with
(`new Set([...ratedRecipeIds, ...favoritedRecipeIds])`; the set is only
consulted for emptiness and membership, so the concatenation of the two
id lists represents it faithfully). -/
def interactedIds (db : DB) (userId : String) : List String :=
  (db.ratings.filter (fun rt => rt.userId = userId)).map (fun rt => rt.recipeId)
    ++ (db.favorites.filter (fun f => f.userId = userId)).map
        (fun f => f.recipeId)

/-- The candidate recipes of the scored branch:
`Recipe.find({ _id: { $nin: ... } })`. -/
def candidateRecipes (db : DB) (userId : String) : List Recipe :=
  db.recipes.filter (fun r => r.id ∉ interactedIds db userId)

/-- Mongo's `.limit(n)` on a query cursor: `limit(0)` is equivalent to
setting no limit at all and returns every document; a positive `n`
returns the first `n`. -/
def mongoLimit (n : ℕ) (l : List α) : List α :=
  if n = 0 then l else l.take n

/-- `getRecommendations` from the route: cold-start branch when the
user has no interactions (its Mongo `.limit(limit)` keeps all recipes
when `limit = 0`), otherwise build the profile from the interacted
recipes and the user's ratings, score every candidate and return the
best `limit` of them via `.slice(0, limit)`. -/
def getRecommendations (lg : ℚ → ℚ) (db : DB) (userId : String)
    (limit : ℕ) : List Recipe :=
  let userRatings := db.ratings.filter (fun rt => rt.userId = userId)
  let interacted := interactedIds db userId
  if interacted.isEmpty then
    mongoLimit limit (sortTrending db.recipes)
  else
    let preferredRecipes := db.recipes.filter (fun r => r.id ∈ interacted)
    let preferenceProfile := buildPreferenceProfile preferredRecipes userRatings
    let scoredRecipes := (candidateRecipes db userId).map
      (fun recipe => (recipe, calculateRecipeScore lg recipe preferenceProfile))
    ((sortBy scoreBefore scoredRecipes).take limit).map (fun item => item.1)

/-- `Rating.findOneAndUpdate({ userId, recipeId }, { $set: { rating } },
{ upsert: true })`: overwrite the first matching document in place,
append when there is none. -/
def upsertRating : List RatingDoc → String → String → ℚ → List RatingDoc
  | [], userId, recipeId, rating => [⟨userId, recipeId, rating⟩]
  | d :: ds, userId, recipeId, rating =>
      if d.userId = userId ∧ d.recipeId = recipeId then
        ⟨d.userId, d.recipeId, rating⟩ :: ds
      else d :: upsertRating ds userId recipeId rating

/-- A BSON value as the un-cast aggregation pipeline sees it: the
stored `recipeId` fields are ObjectIds (`RatingSchema` casts the
upsert's query), while the request body carries a plain string.  BSON
equality is typed: values of different BSON types are never equal. -/
inductive BsonValue where
  | str : String → BsonValue
  | objectId : String → BsonValue
deriving DecidableEq, Repr

/-- The ratings `POST` route: upsert the rating (the `findOneAndUpdate`
query is cast through `RatingSchema`, so the request's string becomes
the stored ObjectId), then `Rating.aggregate` with
`$match: { recipeId: recipeId }`.  Aggregation pipelines bypass schema
casting, so the `$match` compares each stored ObjectId `recipeId`
against the raw request string under typed BSON equality, which never
holds; the aggregation therefore returns no row, `if (agg[0])` is
false, and the `Recipe.findByIdAndUpdate` write-back is skipped.  (Had
a row been produced, `RecipeSchema` declares neither `avgRating` nor
`ratingsCount`, so the strict-mode `$set` would have been stripped as
well.)  The write-back branch below mirrors the source text; it is
unreachable. -/
def postRating (db : DB) (userId recipeId : String) (rating : ℚ) : DB :=
  let ratings := upsertRating db.ratings userId recipeId rating
  let matched := ratings.filter
    (fun d => BsonValue.objectId d.recipeId = BsonValue.str recipeId)
  if matched.isEmpty then { db with ratings := ratings }
  else
    let count : ℚ := matched.length
    let sum : ℚ := (matched.map (fun d => d.rating)).sum
    let avg := sum / count
    { db with
        ratings := ratings
        recipes := db.recipes.map (fun r =>
          if r.id = recipeId then
            { r with avgRating := avg, ratingsCount := count }
          else r) }

/-- The ingredient contribution of `calculateRecipeScore` in isolation
(the first `forEach` loop, started from 0). -/
def ingredientScore (recipe : Recipe) (profile : PreferenceProfile) : ℚ :=
  recipe.ingredients.foldl
    (fun s ing => s + mapGetD profile.ingredients ing * 2) 0

/-- The cuisine contribution of `calculateRecipeScore` in isolation. -/
def cuisineScore (recipe : Recipe) (profile : PreferenceProfile) : ℚ :=
  match recipe.cuisine with
  | some c =>
      if c ≠ "" ∧ mapHas profile.cuisines c then
        mapGetD profile.cuisines c * (1.5 : ℚ)
      else 0
  | none => 0

/-- The difficulty contribution of `calculateRecipeScore` in isolation. -/
def difficultyScore (recipe : Recipe) (profile : PreferenceProfile) : ℚ :=
  match recipe.difficulty with
  | some d =>
      if d ≠ "" ∧ mapHas profile.difficulties d then
        mapGetD profile.difficulties d * (1.2 : ℚ)
      else 0
  | none => 0

/-- The tag contribution of `calculateRecipeScore` in isolation. -/
def tagScore (recipe : Recipe) (profile : PreferenceProfile) : ℚ :=
  recipe.tags.foldl (fun s tag => s + mapGetD profile.tags tag * (1.3 : ℚ)) 0

/-- One nutrition-field term of the scorer: applied only when the
candidate's value is truthy and the band average is positive, and only
when the band has two finite endpoints with positive range; the term is
`max(0, K - diff / range * K)` with `K = 5` for calories and `K = 3`
for protein. -/
def nutCloseness (K v : ℚ) (b : NutritionBand) : ℚ :=
  if v ≠ 0 ∧ b.avg > 0 then
    match b.min, b.max with
    | some mn, some mx =>
        if mx - mn > 0 then max 0 (K - |v - b.avg| / (mx - mn) * K) else 0
    | _, _ => 0
  else 0

/-- The whole nutrition contribution of `calculateRecipeScore`: a
calories term with factor 5 and a protein term with factor 3; the
source has no carbs or fat term. -/
def nutritionScore (recipe : Recipe) (profile : PreferenceProfile) : ℚ :=
  match recipe.nutrition with
  | none => 0
  | some n =>
      nutCloseness 5 n.calories profile.nutritionRanges.calories
        + nutCloseness 3 n.protein profile.nutritionRanges.protein

/-- The popularity contribution of `calculateRecipeScore` in isolation. -/
def popularityScore (lg : ℚ → ℚ) (recipe : Recipe) : ℚ :=
  if recipe.avgRating ≠ 0 ∧ recipe.ratingsCount ≠ 0 then
    recipe.avgRating / 5 * lg (recipe.ratingsCount + 1) * (0.5 : ℚ)
  else 0

/-- Division with an explicit check that the divisor is a number the
source may divide by: `none` marks a division that would produce
`Infinity` or `NaN` in JavaScript. -/
def divCheck (a b : ℚ) : Option ℚ :=
  if b = 0 then none else some (a / b)

/-- The nutrition-field term with every division checked. -/
def nutClosenessChecked (K v : ℚ) (b : NutritionBand) : Option ℚ :=
  if v ≠ 0 ∧ b.avg > 0 then
    match b.min, b.max with
    | some mn, some mx =>
        if mx - mn > 0 then
          (divCheck |v - b.avg| (mx - mn)).map (fun q => max 0 (K - q * K))
        else some 0
    | _, _ => some 0
  else some 0

/-- The popularity term with its division checked. -/
def popularityScoreChecked (lg : ℚ → ℚ) (recipe : Recipe) : Option ℚ :=
  if recipe.avgRating ≠ 0 ∧ recipe.ratingsCount ≠ 0 then
    (divCheck recipe.avgRating 5).map
      (fun q => q * lg (recipe.ratingsCount + 1) * (0.5 : ℚ))
  else some 0

/-- The whole score with every division checked: `none` would mean the
source evaluates a division whose result is not a finite number. -/
def calculateRecipeScoreChecked (lg : ℚ → ℚ) (recipe : Recipe)
    (profile : PreferenceProfile) : Option ℚ := do
  let nut ← match recipe.nutrition with
    | none => some 0
    | some n => do
        let a ← nutClosenessChecked 5 n.calories profile.nutritionRanges.calories
        let b ← nutClosenessChecked 3 n.protein profile.nutritionRanges.protein
        some (a + b)
  let pop ← popularityScoreChecked lg recipe
  some (ingredientScore recipe profile + cuisineScore recipe profile
    + difficultyScore recipe profile + tagScore recipe profile + nut + pop)

/-- The range `max - min` of a band, defined only when both endpoints
are finite. -/
def bandRange (b : NutritionBand) : Option ℚ :=
  match b.min, b.max with
  | some mn, some mx => some (mx - mn)
  | _, _ => none

/-- A nutrition band has zero range when both endpoints are finite and
equal, or is still in its degenerate initial state. -/
def zeroRange (b : NutritionBand) : Prop :=
  bandRange b = some 0 ∨ (b.min = none ∧ b.max = none)

/-- The truthy values of one nutrition field over the recipes that
carry a nutrition record, in recipe order. -/
def nutValues (recipes : List Recipe) (g : Nutrition → ℚ) : List ℚ :=
  ((recipes.filterMap (fun r => r.nutrition)).map g).filter (fun v => v ≠ 0)

/-- The number of interacted recipes that carry a nutrition record (the
`recipeCount` of the builder). -/
def nutCount (recipes : List Recipe) : ℕ :=
  (recipes.filterMap (fun r => r.nutrition)).length

/-- Fold of `bandUpdate` over a list of field values. -/
def bandFold (vals : List ℚ) (b : NutritionBand) : NutritionBand :=
  vals.foldl bandUpdate b

/-- The effect of one builder iteration on one nutrition band, with the
field selected by `g`: update the band only when the recipe carries a
nutrition record whose `g`-value is truthy. -/
def nutFieldStep (g : Nutrition → ℚ) (b : NutritionBand) (r : Recipe) :
    NutritionBand :=
  match r.nutrition with
  | some n => if g n ≠ 0 then bandUpdate b (g n) else b
  | none => b

/-- The effect of one builder iteration on one running nutrition sum. -/
def nutSumStep (g : Nutrition → ℚ) (s : ℚ) (r : Recipe) : ℚ :=
  match r.nutrition with
  | some n => if g n ≠ 0 then s + g n else s
  | none => s

/-- The effect of one builder iteration on the recipe-with-nutrition
counter. -/
def nutCountStep (k : ℕ) (r : Recipe) : ℕ :=
  match r.nutrition with
  | some _ => k + 1
  | none => k

/-- Modelled from the words of the spec's nutrition-closeness row: per
field the term is computed only when the profile average is positive
and the candidate value is truthy; with `diff` and `range` as in the
source, the term is `(1 - diff / range) * 0.5` when `range > 0` and the
field is skipped otherwise.  Kept for comparison with the source
scorer. -/
def specNutritionFieldTerm (v : ℚ) (b : NutritionBand) : ℚ :=
  if v ≠ 0 ∧ b.avg > 0 then
    match b.min, b.max with
    | some mn, some mx =>
        if mx - mn > 0 then (1 - |v - b.avg| / (mx - mn)) * (0.5 : ℚ) else 0
    | _, _ => 0
  else 0

/-- Modelled from the words of the spec's nutrition-closeness row: the
nutrition part of the score is the sum of the
`(1 - diff / range) * 0.5` terms over all four fields. -/
def specNutritionScore (recipe : Recipe) (profile : PreferenceProfile) : ℚ :=
  match recipe.nutrition with
  | none => 0
  | some n =>
      specNutritionFieldTerm n.calories profile.nutritionRanges.calories
        + specNutritionFieldTerm n.protein profile.nutritionRanges.protein
        + specNutritionFieldTerm n.carbs profile.nutritionRanges.carbs
        + specNutritionFieldTerm n.fat profile.nutritionRanges.fat

/-- Modelled from the spec's builder step 6, which has no per-field
truthiness guard: for each recipe with a nutrition record, update every
field's min/max with that recipe's value and add the value to the
running sum unconditionally. -/
def specBandsStep (acc : NutritionRanges × ℚ × ℚ × ℚ × ℚ × ℕ)
    (recipe : Recipe) : NutritionRanges × ℚ × ℚ × ℚ × ℚ × ℕ :=
  match recipe.nutrition with
  | none => acc
  | some n =>
      let (nr, tc, tp, tcb, tf, cnt) := acc
      (⟨bandUpdate nr.calories n.calories, bandUpdate nr.protein n.protein,
        bandUpdate nr.carbs n.carbs, bandUpdate nr.fat n.fat⟩,
       tc + n.calories, tp + n.protein, tcb + n.carbs, tf + n.fat, cnt + 1)

/-- Modelled from the spec's builder steps 6 and 7 (no truthiness
guard): fold `specBandsStep`, then divide each sum by the counter when
the counter is positive. -/
def specNutritionRanges (recipes : List Recipe) : NutritionRanges :=
  let e : NutritionBand := { min := none, max := none, avg := 0 }
  let (nr, tc, tp, tcb, tf, cnt) :=
    recipes.foldl specBandsStep (⟨e, e, e, e⟩, 0, 0, 0, 0, 0)
  if cnt > 0 then
    ⟨{ nr.calories with avg := tc / cnt }, { nr.protein with avg := tp / cnt },
     { nr.carbs with avg := tcb / cnt }, { nr.fat with avg := tf / cnt }⟩
  else nr

/-- Interacted recipe used by concrete checks: 10 calories, nothing
else. -/
def exLow : Recipe where
  id := "low"
  ingredients := []
  cuisine := none
  difficulty := none
  tags := []
  nutrition := some { calories := 10, protein := 0, fat := 0, carbs := 0 }
  avgRating := 0
  ratingsCount := 0

/-- Interacted recipe used by concrete checks: 110 calories, nothing
else. -/
def exHigh : Recipe where
  id := "high"
  ingredients := []
  cuisine := none
  difficulty := none
  tags := []
  nutrition := some { calories := 110, protein := 0, fat := 0, carbs := 0 }
  avgRating := 0
  ratingsCount := 0

/-- Candidate recipe used by concrete checks: its 60 calories sit
exactly on the profile average built from `exLow` and `exHigh`. -/
def exCand : Recipe where
  id := "cand"
  ingredients := []
  cuisine := none
  difficulty := none
  tags := []
  nutrition := some { calories := 60, protein := 0, fat := 0, carbs := 0 }
  avgRating := 0
  ratingsCount := 0

/-- Recipe used by concrete checks: one shared ingredient and one tag. -/
def exA : Recipe where
  id := "A"
  ingredients := [("egg")]
  cuisine := some ("thai")
  difficulty := some ("Easy")
  tags := [("fast")]
  nutrition := none
  avgRating := 0
  ratingsCount := 0

/-- Candidate used by concrete checks: shares the ingredient of `exA`. -/
def exB : Recipe where
  id := "B"
  ingredients := [("egg"), ("rice")]
  cuisine := none
  difficulty := none
  tags := []
  nutrition := none
  avgRating := 4
  ratingsCount := 3

/-- Recipe with a zero-valued calories field next to a nonzero protein
field, separating the source's truthiness guard from the spec's
unconditional band update. -/
def exZeroCal : Recipe where
  id := "zero"
  ingredients := []
  cuisine := none
  difficulty := none
  tags := []
  nutrition := some { calories := 0, protein := 5, fat := 0, carbs := 0 }
  avgRating := 0
  ratingsCount := 0

/-- The profile built from rating `exLow` and `exHigh`; its calories
band is `min 10, max 110, avg 60`. -/
def exProfile : PreferenceProfile :=
  buildPreferenceProfile [exLow, exHigh]
    [⟨("u"), ("low"), 4⟩, ⟨("u"), ("high"), 4⟩]

/-- Database used by concrete checks: one rating by a different user,
so user `u` is a cold-start user. -/
def exColdDB : DB where
  ratings := [⟨("v"), ("A"), 5⟩]
  favorites := []
  recipes := [exA, exB]

/-- Database used by concrete checks: user `u` rated recipe `A`, so
only `B` is a candidate. -/
def exRatedDB : DB where
  ratings := [⟨("u"), ("A"), 5⟩]
  favorites := []
  recipes := [exA, exB]

theorem mapGet_mapSet (m : List (String × ℚ)) (k k2 : String) (v : ℚ) :
    mapGet (mapSet m k v) k2 = if k2 = k then some v else mapGet m k2 := by
  induction m with
  | nil =>
      simp only [mapSet, mapGet]
      rcases eq_or_ne k2 k with h | h
      · rw [if_pos h.symm, if_pos h]
      · rw [if_neg (fun e => h e.symm), if_neg h]
  | cons hd tl ih =>
      obtain ⟨k3, v3⟩ := hd
      rcases eq_or_ne k3 k with h3 | h3
      · subst h3
        simp only [mapSet, if_pos rfl, mapGet]
        rcases eq_or_ne k2 k3 with h2 | h2
        · rw [if_pos h2.symm, if_pos h2]
        · rw [if_neg (fun e => h2 e.symm), if_neg h2,
            if_neg (fun e => h2 e.symm)]
      · simp only [mapSet, if_neg h3, mapGet]
        rcases eq_or_ne k3 k2 with h2 | h2
        · have hk2 : ¬ k2 = k := fun e => h3 (h2.trans e)
          rw [if_pos h2, if_neg hk2, if_pos h2]
        · rw [if_neg h2, if_neg h2, ih]

theorem mapGet_mem (m : List (String × ℚ)) (k : String) (v : ℚ)
    (h : mapGet m k = some v) : (k, v) ∈ m := by
  induction m with
  | nil => simp [mapGet] at h
  | cons hd tl ih =>
      obtain ⟨k3, v3⟩ := hd
      rcases eq_or_ne k3 k with h2 | h2
      · subst h2
        simp [mapGet] at h
        subst h
        exact List.mem_cons_self _ _
      · simp only [mapGet, if_neg h2] at h
        exact List.mem_cons_of_mem _ (ih h)

theorem mapGetD_mapAdd (m : List (String × ℚ)) (k k2 : String) (w : ℚ) :
    mapGetD (mapAdd m k w) k2
      = mapGetD m k2 + if k2 = k then w else 0 := by
  by_cases h : k2 = k
  · subst h
    simp [mapAdd, mapGetD, mapGet_mapSet]
  · simp [mapAdd, mapGetD, mapGet_mapSet, h]

theorem mapGetD_mapAddAll (keys : List String) (m : List (String × ℚ))
    (k : String) (w : ℚ) :
    mapGetD (mapAddAll m keys w) k = mapGetD m k + w * keys.count k := by
  induction keys generalizing m with
  | nil => simp [mapAddAll]
  | cons hd tl ih =>
      have step : mapAddAll m (hd :: tl) w = mapAddAll (mapAdd m hd w) tl w := by
        simp [mapAddAll]
      rw [step, ih, mapGetD_mapAdd]
      by_cases h : k = hd
      · subst h
        simp [List.count_cons]
        ring
      · have : ¬ (hd == k) = true := by simpa using fun e => h e.symm
        simp [List.count_cons, this, h]

theorem mapSet_val_mem (m : List (String × ℚ)) (k : String) (v : ℚ)
    (q : String × ℚ) (hq : q ∈ mapSet m k v) : q ∈ m ∨ q.2 = v := by
  induction m with
  | nil =>
      simp [mapSet] at hq
      simp [hq]
  | cons hd tl ih =>
      obtain ⟨k3, v3⟩ := hd
      by_cases h3 : k3 = k
      · subst h3
        simp [mapSet] at hq
        rcases hq with h | h
        · right; simp [h]
        · left; exact List.mem_cons_of_mem _ h
      · simp [mapSet, h3] at hq
        rcases hq with h | h
        · left; simp [h]
        · rcases ih h with h2 | h2
          · left; exact List.mem_cons_of_mem _ h2
          · right; exact h2

theorem mapGetD_nonneg (m : List (String × ℚ)) (k : String)
    (h : ∀ q ∈ m, 0 < q.2) : 0 ≤ mapGetD m k := by
  unfold mapGetD
  cases hg : mapGet m k with
  | none => simp
  | some v =>
      have := h _ (mapGet_mem m k v hg)
      simpa using le_of_lt this

theorem mapAdd_pos (m : List (String × ℚ)) (k : String) (w : ℚ)
    (hm : ∀ q ∈ m, 0 < q.2) (hw : 0 < w) :
    ∀ q ∈ mapAdd m k w, 0 < q.2 := by
  intro q hq
  rcases mapSet_val_mem m k (mapGetD m k + w) q hq with h | h
  · exact hm q h
  · rw [h]
    have := mapGetD_nonneg m k hm
    linarith

theorem mapAddAll_pos (keys : List String) (m : List (String × ℚ)) (w : ℚ)
    (hm : ∀ q ∈ m, 0 < q.2) (hw : 0 < w) :
    ∀ q ∈ mapAddAll m keys w, 0 < q.2 := by
  induction keys generalizing m with
  | nil => simpa [mapAddAll] using hm
  | cons hd tl ih =>
      have step : mapAddAll m (hd :: tl) w = mapAddAll (mapAdd m hd w) tl w := by
        simp [mapAddAll]
      rw [step]
      exact ih _ (mapAdd_pos m hd w hm hw)

theorem foldl_mul_sum (g : String → ℚ) (c : ℚ) (l : List String) (s : ℚ) :
    l.foldl (fun acc x => acc + g x * c) s = s + (l.map g).sum * c := by
  induction l generalizing s with
  | nil => simp
  | cons hd tl ih =>
      simp only [List.foldl_cons, List.map_cons, List.sum_cons, ih]
      ring

theorem nutCloseness_eq_zero_left (K v : ℚ) (b : NutritionBand)
    (h : ¬ (v ≠ 0 ∧ b.avg > 0)) : nutCloseness K v b = 0 := by
  unfold nutCloseness
  rw [if_neg h]

theorem nutCloseness_of_ranges (K v : ℚ) (b : NutritionBand) (mn mx : ℚ)
    (h : v ≠ 0 ∧ b.avg > 0) (hmn : b.min = some mn) (hmx : b.max = some mx) :
    nutCloseness K v b
      = if mx - mn > 0 then max 0 (K - |v - b.avg| / (mx - mn) * K) else 0 := by
  unfold nutCloseness
  rw [if_pos h, hmn, hmx]

theorem calculateRecipeScore_decomp (lg : ℚ → ℚ) (recipe : Recipe)
    (profile : PreferenceProfile) :
    calculateRecipeScore lg recipe profile
      = ingredientScore recipe profile + cuisineScore recipe profile
        + difficultyScore recipe profile + tagScore recipe profile
        + nutritionScore recipe profile + popularityScore lg recipe := by
  have hnut : ∀ s : ℚ, ∀ n : Nutrition,
      (let score :=
        if n.calories ≠ 0 ∧ profile.nutritionRanges.calories.avg > 0 then
          match profile.nutritionRanges.calories.min,
                profile.nutritionRanges.calories.max with
          | some mn, some mx =>
              if mx - mn > 0 then
                s + max 0 (5 - |n.calories - profile.nutritionRanges.calories.avg|
                  / (mx - mn) * 5)
              else s
          | _, _ => s
        else s
       if n.protein ≠ 0 ∧ profile.nutritionRanges.protein.avg > 0 then
          match profile.nutritionRanges.protein.min,
                profile.nutritionRanges.protein.max with
          | some mn, some mx =>
              if mx - mn > 0 then
                score + max 0 (3 - |n.protein - profile.nutritionRanges.protein.avg|
                  / (mx - mn) * 3)
              else score
          | _, _ => score
        else score)
      = s + nutCloseness 5 n.calories profile.nutritionRanges.calories
          + nutCloseness 3 n.protein profile.nutritionRanges.protein := by
    intro s n
    cases hc1 : profile.nutritionRanges.calories.min <;>
      cases hc2 : profile.nutritionRanges.calories.max <;>
      cases hp1 : profile.nutritionRanges.protein.min <;>
      cases hp2 : profile.nutritionRanges.protein.max <;>
      simp only [nutCloseness, hc1, hc2, hp1, hp2] <;>
      split_ifs <;> ring
  cases hcui : recipe.cuisine <;> cases hdif : recipe.difficulty <;>
    cases hnu : recipe.nutrition <;>
    simp only [calculateRecipeScore, ingredientScore, cuisineScore,
      difficultyScore, tagScore, nutritionScore, popularityScore,
      hcui, hdif, hnu, hnut, foldl_mul_sum] <;>
    first
      | ring1
      | (split_ifs <;> ring1)

theorem length_insertBy (lt : α → α → Bool) (x : α) (l : List α) :
    (insertBy lt x l).length = l.length + 1 := by
  induction l with
  | nil => rfl
  | cons hd tl ih =>
      simp only [insertBy]
      split_ifs <;> simp [ih]

theorem length_sortBy (lt : α → α → Bool) (l : List α) :
    (sortBy lt l).length = l.length := by
  induction l with
  | nil => rfl
  | cons hd tl ih => simp [sortBy, length_insertBy, ih]

theorem mem_insertBy (lt : α → α → Bool) (x y : α) (l : List α)
    (h : y ∈ insertBy lt x l) : y = x ∨ y ∈ l := by
  induction l with
  | nil => simpa [insertBy] using h
  | cons hd tl ih =>
      simp only [insertBy] at h
      split_ifs at h with hc
      · rcases List.mem_cons.mp h with h2 | h2
        · right; simp [h2]
        · rcases ih h2 with h3 | h3
          · left; exact h3
          · right; exact List.mem_cons_of_mem _ h3
      · rcases List.mem_cons.mp h with h2 | h2
        · left; exact h2
        · right; exact h2

theorem mem_sortBy (lt : α → α → Bool) (x : α) (l : List α)
    (h : x ∈ sortBy lt l) : x ∈ l := by
  induction l with
  | nil => simp [sortBy] at h
  | cons hd tl ih =>
      simp only [sortBy] at h
      rcases mem_insertBy lt hd x (sortBy lt tl) h with h2 | h2
      · simp [h2]
      · exact List.mem_cons_of_mem _ (ih h2)

theorem recipeWeight_pos (ratings : List RatingDoc) (recipe : Recipe)
    (hr : ∀ d ∈ ratings, 1 ≤ d.rating) : 0 < recipeWeight ratings recipe := by
  unfold recipeWeight
  cases hf : ratings.find? (fun rt => rt.recipeId = recipe.id) with
  | none => norm_num
  | some d =>
      have := hr d (List.mem_of_find?_eq_some hf)
      linarith

theorem recipeWeight_of_all_three (ratings : List RatingDoc) (recipe : Recipe)
    (h3 : ∀ d ∈ ratings, d.rating = 3) : recipeWeight ratings recipe = 3 := by
  unfold recipeWeight
  cases hf : ratings.find? (fun rt => rt.recipeId = recipe.id) with
  | none => rfl
  | some d => exact h3 d (List.mem_of_find?_eq_some hf)

theorem processRecipe_congr (r1 r2 : List RatingDoc) (acc : BuildAcc)
    (recipe : Recipe) (h : recipeWeight r1 recipe = recipeWeight r2 recipe) :
    processRecipe r1 acc recipe = processRecipe r2 acc recipe := by
  unfold processRecipe
  rw [h]

theorem bandUpdate_avg (b : NutritionBand) (v : ℚ) :
    (bandUpdate b v).avg = b.avg := rfl

theorem bandFold_avg (vals : List ℚ) (b : NutritionBand) :
    (bandFold vals b).avg = b.avg := by
  induction vals generalizing b with
  | nil => rfl
  | cons v vs ih => simpa [bandFold, List.foldl_cons] using ih (bandUpdate b v)

theorem bandFold_min_some (vals : List ℚ) (b : NutritionBand) (mn : ℚ)
    (hb : b.min = some mn) :
    (bandFold vals b).min = some (vals.foldl min mn) := by
  induction vals generalizing b mn with
  | nil => simpa [bandFold] using hb
  | cons v vs ih =>
      have hstep : (bandUpdate b v).min = some (min mn v) := by
        simp [bandUpdate, hb]
      simpa [bandFold, List.foldl_cons] using ih (bandUpdate b v) (min mn v) hstep

theorem bandFold_min_none (vals : List ℚ) (b : NutritionBand)
    (hb : b.min = none) : (bandFold vals b).min = vals.min? := by
  cases vals with
  | nil => simpa [bandFold] using hb
  | cons v vs =>
      have hstep : (bandUpdate b v).min = some v := by simp [bandUpdate, hb]
      have := bandFold_min_some vs (bandUpdate b v) v hstep
      simpa [bandFold, List.foldl_cons, List.min?] using this

theorem bandFold_max_some (vals : List ℚ) (b : NutritionBand) (mx : ℚ)
    (hb : b.max = some mx) :
    (bandFold vals b).max = some (vals.foldl max mx) := by
  induction vals generalizing b mx with
  | nil => simpa [bandFold] using hb
  | cons v vs ih =>
      have hstep : (bandUpdate b v).max = some (max mx v) := by
        simp [bandUpdate, hb]
      simpa [bandFold, List.foldl_cons] using ih (bandUpdate b v) (max mx v) hstep

theorem bandFold_max_none (vals : List ℚ) (b : NutritionBand)
    (hb : b.max = none) : (bandFold vals b).max = vals.max? := by
  cases vals with
  | nil => simpa [bandFold] using hb
  | cons v vs =>
      have hstep : (bandUpdate b v).max = some v := by simp [bandUpdate, hb]
      have := bandFold_max_some vs (bandUpdate b v) v hstep
      simpa [bandFold, List.foldl_cons, List.max?] using this

theorem processRecipe_ingredients (ratings : List RatingDoc) (acc : BuildAcc)
    (r : Recipe) :
    (processRecipe ratings acc r).profile.ingredients
      = mapAddAll acc.profile.ingredients r.ingredients
          (recipeWeight ratings r) := by
  cases hn : r.nutrition <;> simp [processRecipe, hn]

theorem processRecipe_cuisines (ratings : List RatingDoc) (acc : BuildAcc)
    (r : Recipe) :
    (processRecipe ratings acc r).profile.cuisines
      = (match r.cuisine with
         | some c =>
             if c ≠ "" then
               mapAdd acc.profile.cuisines c (recipeWeight ratings r)
             else acc.profile.cuisines
         | none => acc.profile.cuisines) := by
  cases hn : r.nutrition <;> simp [processRecipe, hn]

theorem processRecipe_difficulties (ratings : List RatingDoc) (acc : BuildAcc)
    (r : Recipe) :
    (processRecipe ratings acc r).profile.difficulties
      = (match r.difficulty with
         | some d =>
             if d ≠ "" then
               mapAdd acc.profile.difficulties d (recipeWeight ratings r)
             else acc.profile.difficulties
         | none => acc.profile.difficulties) := by
  cases hn : r.nutrition <;> simp [processRecipe, hn]

theorem processRecipe_tags (ratings : List RatingDoc) (acc : BuildAcc)
    (r : Recipe) :
    (processRecipe ratings acc r).profile.tags
      = mapAddAll acc.profile.tags r.tags (recipeWeight ratings r) := by
  cases hn : r.nutrition <;> simp [processRecipe, hn]

theorem processRecipe_count (ratings : List RatingDoc) (acc : BuildAcc)
    (r : Recipe) :
    (processRecipe ratings acc r).recipeCount = nutCountStep acc.recipeCount r := by
  cases hn : r.nutrition <;> simp [processRecipe, nutCountStep, hn]

theorem processRecipe_calBand (ratings : List RatingDoc) (acc : BuildAcc)
    (r : Recipe) :
    (processRecipe ratings acc r).profile.nutritionRanges.calories
      = nutFieldStep Nutrition.calories acc.profile.nutritionRanges.calories r := by
  cases hn : r.nutrition <;> simp [processRecipe, nutFieldStep, hn]

theorem processRecipe_proBand (ratings : List RatingDoc) (acc : BuildAcc)
    (r : Recipe) :
    (processRecipe ratings acc r).profile.nutritionRanges.protein
      = nutFieldStep Nutrition.protein acc.profile.nutritionRanges.protein r := by
  cases hn : r.nutrition <;> simp [processRecipe, nutFieldStep, hn]

theorem processRecipe_carBand (ratings : List RatingDoc) (acc : BuildAcc)
    (r : Recipe) :
    (processRecipe ratings acc r).profile.nutritionRanges.carbs
      = nutFieldStep Nutrition.carbs acc.profile.nutritionRanges.carbs r := by
  cases hn : r.nutrition <;> simp [processRecipe, nutFieldStep, hn]

theorem processRecipe_fatBand (ratings : List RatingDoc) (acc : BuildAcc)
    (r : Recipe) :
    (processRecipe ratings acc r).profile.nutritionRanges.fat
      = nutFieldStep Nutrition.fat acc.profile.nutritionRanges.fat r := by
  cases hn : r.nutrition <;> simp [processRecipe, nutFieldStep, hn]

theorem processRecipe_totalCalories (ratings : List RatingDoc) (acc : BuildAcc)
    (r : Recipe) :
    (processRecipe ratings acc r).totalCalories
      = nutSumStep Nutrition.calories acc.totalCalories r := by
  cases hn : r.nutrition <;> simp [processRecipe, nutSumStep, hn]

theorem processRecipe_totalProtein (ratings : List RatingDoc) (acc : BuildAcc)
    (r : Recipe) :
    (processRecipe ratings acc r).totalProtein
      = nutSumStep Nutrition.protein acc.totalProtein r := by
  cases hn : r.nutrition <;> simp [processRecipe, nutSumStep, hn]

theorem processRecipe_totalCarbs (ratings : List RatingDoc) (acc : BuildAcc)
    (r : Recipe) :
    (processRecipe ratings acc r).totalCarbs
      = nutSumStep Nutrition.carbs acc.totalCarbs r := by
  cases hn : r.nutrition <;> simp [processRecipe, nutSumStep, hn]

theorem processRecipe_totalFat (ratings : List RatingDoc) (acc : BuildAcc)
    (r : Recipe) :
    (processRecipe ratings acc r).totalFat
      = nutSumStep Nutrition.fat acc.totalFat r := by
  cases hn : r.nutrition <;> simp [processRecipe, nutSumStep, hn]

theorem foldl_process_proj {β : Type _} (ratings : List RatingDoc)
    (f : BuildAcc → β) (step : β → Recipe → β)
    (hstep : ∀ acc r, f (processRecipe ratings acc r) = step (f acc) r) :
    ∀ (rs : List Recipe) (acc : BuildAcc),
      f (rs.foldl (processRecipe ratings) acc) = rs.foldl step (f acc) := by
  intro rs
  induction rs with
  | nil => intro acc; rfl
  | cons r rs ih =>
      intro acc
      rw [List.foldl_cons, List.foldl_cons, ← hstep, ih]

theorem nutValues_cons (r : Recipe) (rs : List Recipe) (g : Nutrition → ℚ) :
    nutValues (r :: rs) g
      = (match r.nutrition with
         | some n => if g n ≠ 0 then g n :: nutValues rs g else nutValues rs g
         | none => nutValues rs g) := by
  cases hn : r.nutrition with
  | none => simp [nutValues, hn]
  | some n =>
      by_cases h : g n ≠ 0 <;> simp [nutValues, hn, h, List.filter_cons]

theorem nutCount_cons (r : Recipe) (rs : List Recipe) :
    nutCount (r :: rs) = nutCountStep (nutCount rs) r := by
  cases hn : r.nutrition <;>
    simp [nutCount, nutCountStep, hn, List.filterMap_cons]

theorem foldl_nutFieldStep (g : Nutrition → ℚ) (rs : List Recipe)
    (b : NutritionBand) :
    rs.foldl (nutFieldStep g) b = bandFold (nutValues rs g) b := by
  induction rs generalizing b with
  | nil => simp [nutValues, bandFold]
  | cons r rs ih =>
      rw [List.foldl_cons, nutValues_cons]
      cases hn : r.nutrition with
      | none => simp only [nutFieldStep, hn]; exact ih b
      | some n =>
          simp only [nutFieldStep, hn]
          split_ifs with h
          · rw [ih]
            simp [bandFold]
          · exact ih b

theorem foldl_nutSumStep (g : Nutrition → ℚ) (rs : List Recipe) (s : ℚ) :
    rs.foldl (nutSumStep g) s = s + (nutValues rs g).sum := by
  induction rs generalizing s with
  | nil => simp [nutValues]
  | cons r rs ih =>
      rw [List.foldl_cons, nutValues_cons]
      cases hn : r.nutrition with
      | none => simp only [nutSumStep, hn]; rw [ih]
      | some n =>
          simp only [nutSumStep, hn]
          split_ifs with h
          · rw [ih]
            simp
            ring
          · rw [ih]

theorem foldl_nutCountStep (rs : List Recipe) (k : ℕ) :
    rs.foldl nutCountStep k = k + nutCount rs := by
  induction rs generalizing k with
  | nil => simp [nutCount]
  | cons r rs ih =>
      rw [List.foldl_cons]
      cases hn : r.nutrition with
      | none => simp only [nutCountStep, hn]; rw [ih]; simp [nutCount, hn]
      | some n =>
          simp only [nutCountStep, hn]
          rw [ih]
          simp [nutCount, hn, List.filterMap_cons]
          omega

theorem build_acc_count (recipes : List Recipe) (ratings : List RatingDoc) :
    (recipes.foldl (processRecipe ratings)
      { profile := emptyProfile, totalCalories := 0, totalProtein := 0,
        totalCarbs := 0, totalFat := 0, recipeCount := 0 }).recipeCount
      = nutCount recipes := by
  rw [foldl_process_proj ratings (fun a => a.recipeCount) nutCountStep
    (processRecipe_count ratings) recipes _, foldl_nutCountStep]
  simp

theorem build_acc_calBand (recipes : List Recipe) (ratings : List RatingDoc) :
    (recipes.foldl (processRecipe ratings)
      { profile := emptyProfile, totalCalories := 0, totalProtein := 0,
        totalCarbs := 0, totalFat := 0,
        recipeCount := 0 }).profile.nutritionRanges.calories
      = bandFold (nutValues recipes Nutrition.calories)
          { min := none, max := none, avg := 0 } := by
  rw [foldl_process_proj ratings (fun a => a.profile.nutritionRanges.calories)
    (nutFieldStep Nutrition.calories) (processRecipe_calBand ratings) recipes _,
    foldl_nutFieldStep]
  rfl

theorem build_acc_proBand (recipes : List Recipe) (ratings : List RatingDoc) :
    (recipes.foldl (processRecipe ratings)
      { profile := emptyProfile, totalCalories := 0, totalProtein := 0,
        totalCarbs := 0, totalFat := 0,
        recipeCount := 0 }).profile.nutritionRanges.protein
      = bandFold (nutValues recipes Nutrition.protein)
          { min := none, max := none, avg := 0 } := by
  rw [foldl_process_proj ratings (fun a => a.profile.nutritionRanges.protein)
    (nutFieldStep Nutrition.protein) (processRecipe_proBand ratings) recipes _,
    foldl_nutFieldStep]
  rfl

theorem build_acc_carBand (recipes : List Recipe) (ratings : List RatingDoc) :
    (recipes.foldl (processRecipe ratings)
      { profile := emptyProfile, totalCalories := 0, totalProtein := 0,
        totalCarbs := 0, totalFat := 0,
        recipeCount := 0 }).profile.nutritionRanges.carbs
      = bandFold (nutValues recipes Nutrition.carbs)
          { min := none, max := none, avg := 0 } := by
  rw [foldl_process_proj ratings (fun a => a.profile.nutritionRanges.carbs)
    (nutFieldStep Nutrition.carbs) (processRecipe_carBand ratings) recipes _,
    foldl_nutFieldStep]
  rfl

theorem build_acc_fatBand (recipes : List Recipe) (ratings : List RatingDoc) :
    (recipes.foldl (processRecipe ratings)
      { profile := emptyProfile, totalCalories := 0, totalProtein := 0,
        totalCarbs := 0, totalFat := 0,
        recipeCount := 0 }).profile.nutritionRanges.fat
      = bandFold (nutValues recipes Nutrition.fat)
          { min := none, max := none, avg := 0 } := by
  rw [foldl_process_proj ratings (fun a => a.profile.nutritionRanges.fat)
    (nutFieldStep Nutrition.fat) (processRecipe_fatBand ratings) recipes _,
    foldl_nutFieldStep]
  rfl

theorem build_acc_totalCalories (recipes : List Recipe)
    (ratings : List RatingDoc) :
    (recipes.foldl (processRecipe ratings)
      { profile := emptyProfile, totalCalories := 0, totalProtein := 0,
        totalCarbs := 0, totalFat := 0, recipeCount := 0 }).totalCalories
      = (nutValues recipes Nutrition.calories).sum := by
  rw [foldl_process_proj ratings (fun a => a.totalCalories)
    (nutSumStep Nutrition.calories) (processRecipe_totalCalories ratings)
    recipes _, foldl_nutSumStep]
  simp

theorem build_acc_totalProtein (recipes : List Recipe)
    (ratings : List RatingDoc) :
    (recipes.foldl (processRecipe ratings)
      { profile := emptyProfile, totalCalories := 0, totalProtein := 0,
        totalCarbs := 0, totalFat := 0, recipeCount := 0 }).totalProtein
      = (nutValues recipes Nutrition.protein).sum := by
  rw [foldl_process_proj ratings (fun a => a.totalProtein)
    (nutSumStep Nutrition.protein) (processRecipe_totalProtein ratings)
    recipes _, foldl_nutSumStep]
  simp

theorem build_acc_totalCarbs (recipes : List Recipe)
    (ratings : List RatingDoc) :
    (recipes.foldl (processRecipe ratings)
      { profile := emptyProfile, totalCalories := 0, totalProtein := 0,
        totalCarbs := 0, totalFat := 0, recipeCount := 0 }).totalCarbs
      = (nutValues recipes Nutrition.carbs).sum := by
  rw [foldl_process_proj ratings (fun a => a.totalCarbs)
    (nutSumStep Nutrition.carbs) (processRecipe_totalCarbs ratings)
    recipes _, foldl_nutSumStep]
  simp

theorem build_acc_totalFat (recipes : List Recipe)
    (ratings : List RatingDoc) :
    (recipes.foldl (processRecipe ratings)
      { profile := emptyProfile, totalCalories := 0, totalProtein := 0,
        totalCarbs := 0, totalFat := 0, recipeCount := 0 }).totalFat
      = (nutValues recipes Nutrition.fat).sum := by
  rw [foldl_process_proj ratings (fun a => a.totalFat)
    (nutSumStep Nutrition.fat) (processRecipe_totalFat ratings)
    recipes _, foldl_nutSumStep]
  simp

theorem nutCloseness_zeroRange (K v : ℚ) (b : NutritionBand)
    (h : zeroRange b) : nutCloseness K v b = 0 := by
  unfold nutCloseness
  rcases h with h | ⟨h1, h2⟩
  · unfold bandRange at h
    cases hmn : b.min with
    | none => rw [hmn] at h; simp at h
    | some mn =>
        cases hmx : b.max with
        | none => rw [hmn, hmx] at h; simp at h
        | some mx =>
            rw [hmn, hmx] at h
            simp only [Option.some.injEq] at h
            split_ifs with h0
            · simp only [hmn, hmx]
              rw [if_neg (by rw [h]; exact lt_irrefl 0)]
            · rfl
  · split_ifs with h0
    · simp [h1, h2]
    · rfl

theorem nutClosenessChecked_eq (K v : ℚ) (b : NutritionBand) :
    nutClosenessChecked K v b = some (nutCloseness K v b) := by
  unfold nutClosenessChecked nutCloseness
  split_ifs with h0
  · cases hmn : b.min with
    | none => cases hmx : b.max <;> rfl
    | some mn =>
        cases hmx : b.max with
        | none => rfl
        | some mx =>
            dsimp only
            split_ifs with hr
            · simp [divCheck, ne_of_gt hr]
            · rfl
  · rfl

theorem popularityScoreChecked_eq (lg : ℚ → ℚ) (recipe : Recipe) :
    popularityScoreChecked lg recipe = some (popularityScore lg recipe) := by
  unfold popularityScoreChecked popularityScore divCheck
  split_ifs with h1 h2 <;> first
    | rfl
    | (exfalso; exact absurd h2 (by norm_num))

theorem scoreChecked_eq (lg : ℚ → ℚ) (recipe : Recipe)
    (profile : PreferenceProfile) :
    calculateRecipeScoreChecked lg recipe profile
      = some (calculateRecipeScore lg recipe profile) := by
  unfold calculateRecipeScoreChecked
  rw [calculateRecipeScore_decomp]
  cases hn : recipe.nutrition <;>
    simp [hn, nutClosenessChecked_eq, popularityScoreChecked_eq,
      nutritionScore]

theorem build_ingredients (recipes : List Recipe) (ratings : List RatingDoc) :
    (buildPreferenceProfile recipes ratings).ingredients
      = ((recipes.foldl (processRecipe ratings)
          { profile := emptyProfile, totalCalories := 0, totalProtein := 0,
            totalCarbs := 0, totalFat := 0,
            recipeCount := 0 }).profile).ingredients := by
  simp only [buildPreferenceProfile]
  split_ifs <;> rfl

theorem build_cuisines (recipes : List Recipe) (ratings : List RatingDoc) :
    (buildPreferenceProfile recipes ratings).cuisines
      = ((recipes.foldl (processRecipe ratings)
          { profile := emptyProfile, totalCalories := 0, totalProtein := 0,
            totalCarbs := 0, totalFat := 0,
            recipeCount := 0 }).profile).cuisines := by
  simp only [buildPreferenceProfile]
  split_ifs <;> rfl

theorem build_difficulties (recipes : List Recipe) (ratings : List RatingDoc) :
    (buildPreferenceProfile recipes ratings).difficulties
      = ((recipes.foldl (processRecipe ratings)
          { profile := emptyProfile, totalCalories := 0, totalProtein := 0,
            totalCarbs := 0, totalFat := 0,
            recipeCount := 0 }).profile).difficulties := by
  simp only [buildPreferenceProfile]
  split_ifs <;> rfl

theorem build_tags (recipes : List Recipe) (ratings : List RatingDoc) :
    (buildPreferenceProfile recipes ratings).tags
      = ((recipes.foldl (processRecipe ratings)
          { profile := emptyProfile, totalCalories := 0, totalProtein := 0,
            totalCarbs := 0, totalFat := 0,
            recipeCount := 0 }).profile).tags := by
  simp only [buildPreferenceProfile]
  split_ifs <;> rfl

theorem processRecipe_maps_pos (ratings : List RatingDoc) (acc : BuildAcc)
    (r : Recipe) (hw : 0 < recipeWeight ratings r)
    (h1 : ∀ q ∈ acc.profile.ingredients, 0 < q.2)
    (h2 : ∀ q ∈ acc.profile.cuisines, 0 < q.2)
    (h3 : ∀ q ∈ acc.profile.difficulties, 0 < q.2)
    (h4 : ∀ q ∈ acc.profile.tags, 0 < q.2) :
    (∀ q ∈ (processRecipe ratings acc r).profile.ingredients, 0 < q.2)
      ∧ (∀ q ∈ (processRecipe ratings acc r).profile.cuisines, 0 < q.2)
      ∧ (∀ q ∈ (processRecipe ratings acc r).profile.difficulties, 0 < q.2)
      ∧ (∀ q ∈ (processRecipe ratings acc r).profile.tags, 0 < q.2) := by
  refine ⟨?_, ?_, ?_, ?_⟩
  · rw [processRecipe_ingredients]
    exact mapAddAll_pos _ _ _ h1 hw
  · rw [processRecipe_cuisines]
    cases r.cuisine with
    | none => exact h2
    | some c =>
        dsimp only
        split_ifs
        · exact mapAdd_pos _ _ _ h2 hw
        · exact h2
  · rw [processRecipe_difficulties]
    cases r.difficulty with
    | none => exact h3
    | some d =>
        dsimp only
        split_ifs
        · exact mapAdd_pos _ _ _ h3 hw
        · exact h3
  · rw [processRecipe_tags]
    exact mapAddAll_pos _ _ _ h4 hw

theorem foldl_process_maps_pos (ratings : List RatingDoc)
    (hw : ∀ r : Recipe, 0 < recipeWeight ratings r) (rs : List Recipe) :
    ∀ acc : BuildAcc,
      (∀ q ∈ acc.profile.ingredients, 0 < q.2) →
      (∀ q ∈ acc.profile.cuisines, 0 < q.2) →
      (∀ q ∈ acc.profile.difficulties, 0 < q.2) →
      (∀ q ∈ acc.profile.tags, 0 < q.2) →
      (∀ q ∈ (rs.foldl (processRecipe ratings) acc).profile.ingredients, 0 < q.2)
        ∧ (∀ q ∈ (rs.foldl (processRecipe ratings) acc).profile.cuisines, 0 < q.2)
        ∧ (∀ q ∈ (rs.foldl (processRecipe ratings) acc).profile.difficulties, 0 < q.2)
        ∧ (∀ q ∈ (rs.foldl (processRecipe ratings) acc).profile.tags, 0 < q.2) := by
  induction rs with
  | nil => intro acc h1 h2 h3 h4; exact ⟨h1, h2, h3, h4⟩
  | cons r rs ih =>
      intro acc h1 h2 h3 h4
      obtain ⟨g1, g2, g3, g4⟩ := processRecipe_maps_pos ratings acc r (hw r) h1 h2 h3 h4
      rw [List.foldl_cons]
      exact ih _ g1 g2 g3 g4

theorem build_maps_pos (recipes : List Recipe) (ratings : List RatingDoc)
    (hr : ∀ d ∈ ratings, 1 ≤ d.rating) :
    (∀ q ∈ (buildPreferenceProfile recipes ratings).ingredients, 0 < q.2)
      ∧ (∀ q ∈ (buildPreferenceProfile recipes ratings).cuisines, 0 < q.2)
      ∧ (∀ q ∈ (buildPreferenceProfile recipes ratings).difficulties, 0 < q.2)
      ∧ (∀ q ∈ (buildPreferenceProfile recipes ratings).tags, 0 < q.2) := by
  have hw : ∀ r : Recipe, 0 < recipeWeight ratings r :=
    fun r => recipeWeight_pos ratings r hr
  have h := foldl_process_maps_pos ratings hw recipes
    { profile := emptyProfile, totalCalories := 0, totalProtein := 0,
      totalCarbs := 0, totalFat := 0, recipeCount := 0 }
    (by intro q hq; simp [emptyProfile] at hq)
    (by intro q hq; simp [emptyProfile] at hq)
    (by intro q hq; simp [emptyProfile] at hq)
    (by intro q hq; simp [emptyProfile] at hq)
  rw [build_ingredients, build_cuisines, build_difficulties, build_tags]
  exact h

theorem ingredientScore_nonneg (recipe : Recipe) (profile : PreferenceProfile)
    (h : ∀ q ∈ profile.ingredients, 0 < q.2) :
    0 ≤ ingredientScore recipe profile := by
  unfold ingredientScore
  rw [foldl_mul_sum]
  have : 0 ≤ ((recipe.ingredients.map (mapGetD profile.ingredients)).sum) := by
    apply List.sum_nonneg
    intro x hx
    obtain ⟨a, _, ha⟩ := List.mem_map.mp hx
    rw [← ha]
    exact mapGetD_nonneg _ _ h
  linarith

theorem tagScore_nonneg (recipe : Recipe) (profile : PreferenceProfile)
    (h : ∀ q ∈ profile.tags, 0 < q.2) : 0 ≤ tagScore recipe profile := by
  unfold tagScore
  rw [foldl_mul_sum]
  have : 0 ≤ ((recipe.tags.map (mapGetD profile.tags)).sum) := by
    apply List.sum_nonneg
    intro x hx
    obtain ⟨a, _, ha⟩ := List.mem_map.mp hx
    rw [← ha]
    exact mapGetD_nonneg _ _ h
  linarith

theorem cuisineScore_nonneg (recipe : Recipe) (profile : PreferenceProfile)
    (h : ∀ q ∈ profile.cuisines, 0 < q.2) : 0 ≤ cuisineScore recipe profile := by
  unfold cuisineScore
  cases recipe.cuisine with
  | none => exact le_refl 0
  | some c =>
      dsimp only
      split_ifs
      · have := mapGetD_nonneg profile.cuisines c h
        linarith
      · exact le_refl 0

theorem difficultyScore_nonneg (recipe : Recipe) (profile : PreferenceProfile)
    (h : ∀ q ∈ profile.difficulties, 0 < q.2) :
    0 ≤ difficultyScore recipe profile := by
  unfold difficultyScore
  cases recipe.difficulty with
  | none => exact le_refl 0
  | some d =>
      dsimp only
      split_ifs
      · have := mapGetD_nonneg profile.difficulties d h
        linarith
      · exact le_refl 0

theorem nutCloseness_nonneg (K v : ℚ) (b : NutritionBand) :
    0 ≤ nutCloseness K v b := by
  unfold nutCloseness
  split_ifs with h1
  · cases b.min <;> cases b.max <;> try exact le_refl 0
    dsimp only
    split_ifs
    · exact le_max_left 0 _
    · exact le_refl 0
  · exact le_refl 0

theorem nutritionScore_nonneg (recipe : Recipe) (profile : PreferenceProfile) :
    0 ≤ nutritionScore recipe profile := by
  unfold nutritionScore
  cases recipe.nutrition with
  | none => exact le_refl 0
  | some n =>
      have a := nutCloseness_nonneg 5 n.calories profile.nutritionRanges.calories
      have b := nutCloseness_nonneg 3 n.protein profile.nutritionRanges.protein
      dsimp only
      linarith

theorem popularityScore_nonneg (lg : ℚ → ℚ) (recipe : Recipe)
    (havg : 0 ≤ recipe.avgRating) (hcnt : 0 ≤ recipe.ratingsCount)
    (hlg : ∀ x : ℚ, 1 ≤ x → 0 ≤ lg x) : 0 ≤ popularityScore lg recipe := by
  unfold popularityScore
  split_ifs with h
  · have h1 : 0 ≤ recipe.avgRating / 5 := by positivity
    have h2 : 0 ≤ lg (recipe.ratingsCount + 1) := hlg _ (by linarith)
    have h3 : (0 : ℚ) ≤ (0.5 : ℚ) := by norm_num
    exact mul_nonneg (mul_nonneg h1 h2) h3
  · exact le_refl 0

theorem bandFold_eq (vals : List ℚ) :
    bandFold vals { min := none, max := none, avg := 0 }
      = { min := vals.min?, max := vals.max?, avg := 0 } := by
  have h1 := bandFold_min_none vals { min := none, max := none, avg := 0 } rfl
  have h2 := bandFold_max_none vals { min := none, max := none, avg := 0 } rfl
  have h3 := bandFold_avg vals { min := none, max := none, avg := 0 }
  rcases hbf : bandFold vals { min := none, max := none, avg := 0 }
    with ⟨mn, mx, av⟩
  rw [hbf] at h1 h2 h3
  dsimp only at h1 h2 h3
  rw [h1, h2, h3]

theorem build_calories_band (recipes : List Recipe) (ratings : List RatingDoc) :
    (buildPreferenceProfile recipes ratings).nutritionRanges.calories
      = { min := (nutValues recipes Nutrition.calories).min?
          max := (nutValues recipes Nutrition.calories).max?
          avg := if nutCount recipes = 0 then 0
                 else (nutValues recipes Nutrition.calories).sum
                   / (nutCount recipes : ℚ) } := by
  have hcount := build_acc_count recipes ratings
  have hcal := build_acc_calBand recipes ratings
  have htc := build_acc_totalCalories recipes ratings
  simp only [buildPreferenceProfile]
  by_cases hpos : 0 < nutCount recipes
  · rw [if_pos (by rw [hcount]; exact hpos)]
    simp only [hcal, bandFold_eq, htc, hcount]
    rw [if_neg (by omega)]
  · rw [if_neg (by rw [hcount]; omega)]
    rw [hcal, bandFold_eq, if_pos (by omega : nutCount recipes = 0)]

theorem build_protein_band (recipes : List Recipe) (ratings : List RatingDoc) :
    (buildPreferenceProfile recipes ratings).nutritionRanges.protein
      = { min := (nutValues recipes Nutrition.protein).min?
          max := (nutValues recipes Nutrition.protein).max?
          avg := if nutCount recipes = 0 then 0
                 else (nutValues recipes Nutrition.protein).sum
                   / (nutCount recipes : ℚ) } := by
  have hcount := build_acc_count recipes ratings
  have hpro := build_acc_proBand recipes ratings
  have htp := build_acc_totalProtein recipes ratings
  simp only [buildPreferenceProfile]
  by_cases hpos : 0 < nutCount recipes
  · rw [if_pos (by rw [hcount]; exact hpos)]
    simp only [hpro, bandFold_eq, htp, hcount]
    rw [if_neg (by omega)]
  · rw [if_neg (by rw [hcount]; omega)]
    rw [hpro, bandFold_eq, if_pos (by omega : nutCount recipes = 0)]

theorem build_carbs_band (recipes : List Recipe) (ratings : List RatingDoc) :
    (buildPreferenceProfile recipes ratings).nutritionRanges.carbs
      = { min := (nutValues recipes Nutrition.carbs).min?
          max := (nutValues recipes Nutrition.carbs).max?
          avg := if nutCount recipes = 0 then 0
                 else (nutValues recipes Nutrition.carbs).sum
                   / (nutCount recipes : ℚ) } := by
  have hcount := build_acc_count recipes ratings
  have hcar := build_acc_carBand recipes ratings
  have htcb := build_acc_totalCarbs recipes ratings
  simp only [buildPreferenceProfile]
  by_cases hpos : 0 < nutCount recipes
  · rw [if_pos (by rw [hcount]; exact hpos)]
    simp only [hcar, bandFold_eq, htcb, hcount]
    rw [if_neg (by omega)]
  · rw [if_neg (by rw [hcount]; omega)]
    rw [hcar, bandFold_eq, if_pos (by omega : nutCount recipes = 0)]

theorem build_fat_band (recipes : List Recipe) (ratings : List RatingDoc) :
    (buildPreferenceProfile recipes ratings).nutritionRanges.fat
      = { min := (nutValues recipes Nutrition.fat).min?
          max := (nutValues recipes Nutrition.fat).max?
          avg := if nutCount recipes = 0 then 0
                 else (nutValues recipes Nutrition.fat).sum
                   / (nutCount recipes : ℚ) } := by
  have hcount := build_acc_count recipes ratings
  have hfat := build_acc_fatBand recipes ratings
  have htf := build_acc_totalFat recipes ratings
  simp only [buildPreferenceProfile]
  by_cases hpos : 0 < nutCount recipes
  · rw [if_pos (by rw [hcount]; exact hpos)]
    simp only [hfat, bandFold_eq, htf, hcount]
    rw [if_neg (by omega)]
  · rw [if_neg (by rw [hcount]; omega)]
    rw [hfat, bandFold_eq, if_pos (by omega : nutCount recipes = 0)]

theorem exProfile_eval :
    exProfile
      = { ingredients := [], cuisines := [], difficulties := [], tags := [],
          nutritionRanges :=
            { calories := { min := some 10, max := some 110, avg := 60 }
              protein := { min := none, max := none, avg := 0 }
              carbs := { min := none, max := none, avg := 0 }
              fat := { min := none, max := none, avg := 0 } } } := by
  norm_num [exProfile, buildPreferenceProfile, processRecipe, recipeWeight,
    exLow, exHigh, emptyProfile, bandUpdate, mapAddAll, min_def, max_def]

theorem exLowBand_eval :
    (buildPreferenceProfile [exLow] []).nutritionRanges.calories
      = { min := some 10, max := some 10, avg := 10 } := by
  norm_num [buildPreferenceProfile, processRecipe, recipeWeight, exLow,
    emptyProfile, bandUpdate]

/-- C1 (amended): the candidate's score decomposes into the ingredient,
cuisine, difficulty and tag contributions plus a nutrition part plus the
popularity prior, where the nutrition part is a term for calories and a
term for protein only — each computed only when the profile average for
the field is positive and the candidate's field value is truthy, equal
to `max(0, 5 - diff/range*5)` (calories) and `max(0, 3 - diff/range*3)`
(protein) when `range > 0` and skipped when `range ≤ 0` — and carbs and
fat contribute no term at all.  (The claim's `(1 - diff/range) * 0.5`
over all four fields is not what the code computes.) -/
theorem claim1_nutrition_part (lg : ℚ → ℚ) (recipe : Recipe)
    (profile : PreferenceProfile) :
    calculateRecipeScore lg recipe profile
      = ingredientScore recipe profile + cuisineScore recipe profile
        + difficultyScore recipe profile + tagScore recipe profile
        + (match recipe.nutrition with
           | none => 0
           | some n =>
               nutCloseness 5 n.calories profile.nutritionRanges.calories
                 + nutCloseness 3 n.protein profile.nutritionRanges.protein)
        + popularityScore lg recipe := by
  rw [calculateRecipeScore_decomp]
  cases hn : recipe.nutrition <;> simp [nutritionScore, hn]

/-- C1 counterexample: at a candidate whose 60 calories sit on the
average of a profile with calories band min 10 / max 110 / avg 60, the
code's score is 5 while the claim's four-field `(1 - diff/range) * 0.5`
nutrition part would make it 0.5: the claim's formula does not equal
the code's nutrition part. -/
theorem claim1_counterexample :
    calculateRecipeScore (fun _ => 0) exCand exProfile
      ≠ ingredientScore exCand exProfile + cuisineScore exCand exProfile
        + difficultyScore exCand exProfile + tagScore exCand exProfile
        + specNutritionScore exCand exProfile
        + popularityScore (fun _ => 0) exCand := by
  have hL : calculateRecipeScore (fun _ => 0) exCand exProfile = 5 := by
    rw [exProfile_eval]
    norm_num [calculateRecipeScore, exCand, mapGetD, mapGet, mapHas, max_def]
  have hR : ingredientScore exCand exProfile + cuisineScore exCand exProfile
      + difficultyScore exCand exProfile + tagScore exCand exProfile
      + specNutritionScore exCand exProfile
      + popularityScore (fun _ => 0) exCand = 1 / 2 := by
    rw [exProfile_eval]
    norm_num [ingredientScore, cuisineScore, difficultyScore, tagScore,
      specNutritionScore, specNutritionFieldTerm, popularityScore, exCand,
      mapGetD, mapGet, mapHas]
  rw [hL, hR]
  norm_num

/-- C2 (code_bug): the claim (and the spec's "the stored recipe always
reflects the current average of all its ratings") is the evident
intent, but the program cannot perform the write: the aggregation's
un-cast `$match` compares the stored ObjectId `recipeId`s against the
request's raw string, matches no document, and the write-back is
skipped — independently, `RecipeSchema` declares neither `avgRating`
nor `ratingsCount`, so the strict-mode `$set` would be stripped.  The
stored recipes are unchanged by every rating `POST`; in particular,
after ratings 4 and 2 on the fresh recipe `exA`, the stored recipe
still has `avgRating = 0` and `ratingsCount = 0`, not 3 and 2. -/
theorem claim2_rating_aggregate_bug :
    (∀ (db : DB) (userId recipeId : String) (rating : ℚ),
        (postRating db userId recipeId rating).recipes = db.recipes)
      ∧ (postRating (postRating (⟨[], [], [exA]⟩ : DB) ("u1") ("A") 4)
            ("u2") ("A") 2).recipes = [exA]
      ∧ exA.avgRating = 0 ∧ exA.ratingsCount = 0 := by
  have hmatch : ∀ (l : List RatingDoc) (rid : String),
      l.filter (fun d => BsonValue.objectId d.recipeId = BsonValue.str rid)
        = [] := by
    intro l rid
    rw [List.filter_eq_nil_iff]
    intro d _
    simp
  have hrec : ∀ (db : DB) (userId recipeId : String) (rating : ℚ),
      (postRating db userId recipeId rating).recipes = db.recipes := by
    intro db userId recipeId rating
    simp [postRating, hmatch]
  refine ⟨hrec, ?_, rfl, rfl⟩
  rw [hrec, hrec]

/-- C3 (amended): a user with no rating and no favorite in the stored
collections gets the trending order of all recipes (avgRating
descending, then ratingsCount descending) truncated to the limit when
the limit is nonzero; a limit of 0 is Mongo's "no limit", so the
cold-start branch then returns all recipes in trending order untruncated. -/
theorem claim3_cold_start (lg : ℚ → ℚ) (db : DB) (userId : String)
    (limit : ℕ) (hr : ∀ d ∈ db.ratings, d.userId ≠ userId)
    (hf : ∀ d ∈ db.favorites, d.userId ≠ userId) :
    (limit ≠ 0 →
      getRecommendations lg db userId limit
        = (sortTrending db.recipes).take limit)
      ∧ getRecommendations lg db userId 0 = sortTrending db.recipes := by
  have h1 : db.ratings.filter (fun rt => rt.userId = userId) = [] := by
    rw [List.filter_eq_nil_iff]
    intro a ha
    simpa using hr a ha
  have h2 : db.favorites.filter (fun f => f.userId = userId) = [] := by
    rw [List.filter_eq_nil_iff]
    intro a ha
    simpa using hf a ha
  constructor
  · intro hl
    simp [getRecommendations, interactedIds, h1, h2, mongoLimit, hl]
  · simp [getRecommendations, interactedIds, h1, h2, mongoLimit]

/-- C3 counterexample: at `limit = 0` the cold-start branch's Mongo
`.limit(0)` returns every recipe, so on a two-recipe collection the
result is not the trending order truncated to 0 (the empty list), and
the claim fails for that limit. -/
theorem claim3_counterexample :
    getRecommendations (fun _ => 0) exColdDB ("u") 0
      ≠ (sortTrending exColdDB.recipes).take 0 := by decide

/-- C3 witness: user `u` has no interactions in `exColdDB` (whose only
rating belongs to `v`): with limit 1 the result is the truncated
trending sort, with limit 0 the whole trending sort. -/
theorem claim3_witness :
    getRecommendations (fun _ => 0) exColdDB ("u") 1
        = (sortTrending exColdDB.recipes).take 1
      ∧ getRecommendations (fun _ => 0) exColdDB ("u") 0
        = sortTrending exColdDB.recipes :=
  ⟨(claim3_cold_start (fun _ => 0) exColdDB ("u") 1 (by decide)
      (by decide)).1 (by decide),
   (claim3_cold_start (fun _ => 0) exColdDB ("u") 0 (by decide)
      (by decide)).2⟩

/-- C4: an interacted recipe with no rating by the user weighs 3, and a
profile built from favorite-only interactions equals the profile built
from rating every one of those recipes 3. -/
theorem claim4_favorite_weight :
    (∀ (ratings : List RatingDoc) (recipe : Recipe),
        (∀ d ∈ ratings, d.recipeId ≠ recipe.id) →
          recipeWeight ratings recipe = 3)
      ∧ ∀ (recipes : List Recipe) (ratings : List RatingDoc),
          (∀ d ∈ ratings, d.rating = 3) →
            buildPreferenceProfile recipes ratings
              = buildPreferenceProfile recipes [] := by
  constructor
  · intro ratings recipe h
    unfold recipeWeight
    have hfind : ratings.find? (fun rt => rt.recipeId = recipe.id) = none := by
      rw [List.find?_eq_none]
      intro x hx
      simpa using h x hx
    rw [hfind]
  · intro recipes ratings h3
    have hstep : ∀ (acc : BuildAcc) (r : Recipe),
        processRecipe ratings acc r = processRecipe [] acc r := by
      intro acc r
      apply processRecipe_congr
      rw [recipeWeight_of_all_three ratings r h3]
      rfl
    have hfold : ∀ acc : BuildAcc,
        recipes.foldl (processRecipe ratings) acc
          = recipes.foldl (processRecipe []) acc := by
      induction recipes with
      | nil => intro acc; rfl
      | cons r rs ih =>
          intro acc
          rw [List.foldl_cons, List.foldl_cons, hstep, ih]
    unfold buildPreferenceProfile
    rw [hfold]

/-- C4 witness: the weight of a recipe absent from the rating list is
3, and the favorite-only profile of `exA` equals its rating-3 profile. -/
theorem claim4_witness :
    recipeWeight [⟨("u"), ("other"), 3⟩] exA = 3
      ∧ buildPreferenceProfile [exA] [⟨("u"), ("A"), 3⟩]
          = buildPreferenceProfile [exA] [] :=
  ⟨claim4_favorite_weight.1 _ _ (by decide),
   claim4_favorite_weight.2 _ _ (by decide)⟩

/-- C5: the ingredient contribution of a candidate is twice the sum of
the profile weights of its ingredient names (0 when absent), and when
the user's only interaction is rating `A` with 5, an ingredient listed
once in `A` carries profile weight 5, hence contributes `5 * 2 = 10`
per occurrence in a candidate. -/
theorem claim5_ingredient_weight (recipe : Recipe)
    (profile : PreferenceProfile) (A : Recipe) (u i : String)
    (hcount : A.ingredients.count i = 1) :
    ingredientScore recipe profile
        = 2 * ((recipe.ingredients.map (mapGetD profile.ingredients)).sum)
      ∧ mapGetD (buildPreferenceProfile [A] [⟨u, A.id, 5⟩]).ingredients i * 2
          = 10 := by
  constructor
  · unfold ingredientScore
    rw [foldl_mul_sum]
    ring
  · have hw : recipeWeight [⟨u, A.id, 5⟩] A = 5 := by
      unfold recipeWeight
      rw [List.find?_cons_of_pos _ (by simp)]
    have hing : (buildPreferenceProfile [A] [⟨u, A.id, 5⟩]).ingredients
        = mapAddAll [] A.ingredients 5 := by
      rw [build_ingredients]
      simp only [List.foldl_cons, List.foldl_nil]
      rw [processRecipe_ingredients, hw]
      rfl
    rw [hing, mapGetD_mapAddAll, hcount]
    norm_num [mapGetD, mapGet]

/-- C5 witness: with the profile built from rating `exA` 5, the shared
ingredient of `exA` and `exB` contributes exactly 10. -/
theorem claim5_witness :
    ingredientScore exB exProfile
        = 2 * ((exB.ingredients.map (mapGetD exProfile.ingredients)).sum)
      ∧ mapGetD (buildPreferenceProfile [exA]
          [⟨("u"), exA.id, 5⟩]).ingredients ("egg") * 2 = 10 :=
  claim5_ingredient_weight exB exProfile exA ("u") ("egg") (by decide)

/-- C6 (amended): for each nutrition field, the builder's band min and
max are the least and greatest truthy (nonzero) values of that field
over the recipes carrying a nutrition record — a zero-valued field is
skipped, not folded in — and the band average is the sum of those
truthy values divided by the number of recipes with a nutrition record,
left at 0 when that counter is zero. -/
theorem claim6_nutrition_bands (recipes : List Recipe)
    (ratings : List RatingDoc) :
    (buildPreferenceProfile recipes ratings).nutritionRanges
      = { calories :=
            { min := (nutValues recipes Nutrition.calories).min?
              max := (nutValues recipes Nutrition.calories).max?
              avg := if nutCount recipes = 0 then 0
                     else (nutValues recipes Nutrition.calories).sum
                       / (nutCount recipes : ℚ) }
          protein :=
            { min := (nutValues recipes Nutrition.protein).min?
              max := (nutValues recipes Nutrition.protein).max?
              avg := if nutCount recipes = 0 then 0
                     else (nutValues recipes Nutrition.protein).sum
                       / (nutCount recipes : ℚ) }
          carbs :=
            { min := (nutValues recipes Nutrition.carbs).min?
              max := (nutValues recipes Nutrition.carbs).max?
              avg := if nutCount recipes = 0 then 0
                     else (nutValues recipes Nutrition.carbs).sum
                       / (nutCount recipes : ℚ) }
          fat :=
            { min := (nutValues recipes Nutrition.fat).min?
              max := (nutValues recipes Nutrition.fat).max?
              avg := if nutCount recipes = 0 then 0
                     else (nutValues recipes Nutrition.fat).sum
                       / (nutCount recipes : ℚ) } } := by
  have h1 := build_calories_band recipes ratings
  have h2 := build_protein_band recipes ratings
  have h3 := build_carbs_band recipes ratings
  have h4 := build_fat_band recipes ratings
  rcases hnr : (buildPreferenceProfile recipes ratings).nutritionRanges
    with ⟨c, p, cb, f⟩
  rw [hnr] at h1 h2 h3 h4
  dsimp only at h1 h2 h3 h4
  rw [h1, h2, h3, h4]

/-- C6 counterexample: on a recipe whose nutrition record has calories
0 and protein 5, the builder leaves the calories band untouched (the
truthiness guard skips a zero field) while the claim's unconditional
per-field update would set the band to min 0 / max 0: the bands differ. -/
theorem claim6_counterexample :
    (buildPreferenceProfile [exZeroCal] []).nutritionRanges
      ≠ specNutritionRanges [exZeroCal] := by
  intro h
  have h1 := build_calories_band [exZeroCal] []
  rw [h] at h1
  have hv : nutValues [exZeroCal] Nutrition.calories = [] := by
    simp [nutValues, exZeroCal]
  rw [hv] at h1
  have h2 : (specNutritionRanges [exZeroCal]).calories.min = some 0 := by
    norm_num [specNutritionRanges, specBandsStep, exZeroCal, bandUpdate]
  rw [h1] at h2
  simp at h2

/-- C7: when a profile band has zero range — equal finite endpoints or
the degenerate initial state — the nutrition term of that field is
exactly 0; with both bands in such a state the whole score reduces to
the other four contributions; and the division-checked scorer always
returns `some` of the score, so no division that would yield `NaN` or
`Infinity` is ever evaluated. -/
theorem claim7_zero_range (lg : ℚ → ℚ) (recipe : Recipe)
    (profile : PreferenceProfile) :
    (∀ n : Nutrition, recipe.nutrition = some n →
        (zeroRange profile.nutritionRanges.calories →
          nutCloseness 5 n.calories profile.nutritionRanges.calories = 0)
        ∧ (zeroRange profile.nutritionRanges.protein →
          nutCloseness 3 n.protein profile.nutritionRanges.protein = 0))
      ∧ (zeroRange profile.nutritionRanges.calories →
          zeroRange profile.nutritionRanges.protein →
          calculateRecipeScore lg recipe profile
            = ingredientScore recipe profile + cuisineScore recipe profile
              + difficultyScore recipe profile + tagScore recipe profile
              + popularityScore lg recipe)
      ∧ calculateRecipeScoreChecked lg recipe profile
          = some (calculateRecipeScore lg recipe profile) := by
  refine ⟨?_, ?_, scoreChecked_eq lg recipe profile⟩
  · intro n _
    exact ⟨fun h => nutCloseness_zeroRange 5 _ _ h,
      fun h => nutCloseness_zeroRange 3 _ _ h⟩
  · intro hc hp
    rw [calculateRecipeScore_decomp]
    have hns : nutritionScore recipe profile = 0 := by
      unfold nutritionScore
      cases hn : recipe.nutrition with
      | none => rfl
      | some n =>
          dsimp only
          rw [nutCloseness_zeroRange 5 _ _ hc, nutCloseness_zeroRange 3 _ _ hp]
          ring
    rw [hns]
    ring

/-- C7 witness: the profile built from `exLow` alone has a zero-range
calories band (min = max = 10); `exCand`'s calories term is 0 and the
checked scorer returns `some` of the plain score. -/
theorem claim7_witness :
    nutCloseness 5 (60 : ℚ)
        (buildPreferenceProfile [exLow] []).nutritionRanges.calories = 0
      ∧ calculateRecipeScoreChecked (fun _ => 0) exCand
          (buildPreferenceProfile [exLow] [])
        = some (calculateRecipeScore (fun _ => 0) exCand
            (buildPreferenceProfile [exLow] [])) := by
  constructor
  · exact (((claim7_zero_range (fun _ => 0) exCand
      (buildPreferenceProfile [exLow] [])).1 ⟨60, 0, 0, 0⟩ rfl).1
        (by rw [zeroRange, exLowBand_eval]; left; norm_num [bandRange]))
  · exact (claim7_zero_range (fun _ => 0) exCand
      (buildPreferenceProfile [exLow] [])).2.2

/-- C8: no recipe whose id is among the user's rated or favorited
recipe ids ever appears in the recommendation output, in either
branch. -/
theorem claim8_no_interacted (lg : ℚ → ℚ) (db : DB) (userId : String)
    (limit : ℕ) (r : Recipe)
    (hr : r ∈ getRecommendations lg db userId limit) :
    r.id ∉ interactedIds db userId := by
  simp only [getRecommendations] at hr
  split_ifs at hr with hempty
  · rw [List.isEmpty_iff] at hempty
    rw [hempty]
    simp
  · obtain ⟨pair, hpair, hfst⟩ := List.mem_map.mp hr
    have hpair2 : pair ∈ sortBy scoreBefore _ := List.take_subset _ _ hpair
    have hpair3 := mem_sortBy _ _ _ hpair2
    obtain ⟨cand, hcand, heq⟩ := List.mem_map.mp hpair3
    have hc2 := (List.mem_filter.mp hcand).2
    have hr1 : r = cand := by
      rw [← hfst, ← heq]
    rw [hr1]
    simpa using hc2

/-- C8 witness: user `u` rated recipe `A` in `exRatedDB`; candidate `B`
is in the output and its id is not among the interacted ids. -/
theorem claim8_witness :
    exB.id ∉ interactedIds exRatedDB ("u") :=
  claim8_no_interacted (fun _ => 0) exRatedDB ("u") 5 exB (by decide)

/-- C9 (amended): the output length is `min(N, limit)` in the scored
branch for every limit (its `.slice(0, limit)` truncates), and in the
cold-start branch for every nonzero limit; at `limit = 0` the
cold-start branch's Mongo `.limit(0)` means no limit, so its length is
the full recipe count `N`, not `min(N, 0) = 0`. -/
theorem claim9_output_length (lg : ℚ → ℚ) (db : DB) (userId : String)
    (limit : ℕ) :
    (getRecommendations lg db userId limit).length
      = (if (interactedIds db userId).isEmpty then
           (if limit = 0 then db.recipes.length
            else min db.recipes.length limit)
         else min (candidateRecipes db userId).length limit) := by
  simp only [getRecommendations, sortTrending, mongoLimit]
  split_ifs with h hl
  · rw [length_sortBy]
  · rw [List.length_take, length_sortBy, Nat.min_comm]
  · rw [List.length_map, List.length_take, length_sortBy, List.length_map,
      Nat.min_comm]

/-- C9 counterexample: at `limit = 0` on a two-recipe collection with a
cold-start user, the output holds both recipes, so its length is not
`min(N, 0) = 0` and the claimed formula fails for that limit. -/
theorem claim9_counterexample :
    (getRecommendations (fun _ => 0) exColdDB ("u") 0).length
      ≠ min exColdDB.recipes.length 0 := by decide

/-- C10: against a profile built from ratings in 1..5 (favorites
defaulting to 3), every frequency-map entry is strictly positive, and a
candidate with nonnegative `avgRating`/`ratingsCount` never scores
below 0 for any logarithm that is nonnegative on `[1, ∞)` — as
`Math.log` is. -/
theorem claim10_score_nonneg (lg : ℚ → ℚ) (recipes : List Recipe)
    (ratings : List RatingDoc) (recipe : Recipe)
    (hr : ∀ d ∈ ratings, 1 ≤ d.rating ∧ d.rating ≤ 5)
    (havg : 0 ≤ recipe.avgRating) (hcnt : 0 ≤ recipe.ratingsCount)
    (hlg : ∀ x : ℚ, 1 ≤ x → 0 ≤ lg x) :
    (∀ q ∈ (buildPreferenceProfile recipes ratings).ingredients, 0 < q.2)
      ∧ (∀ q ∈ (buildPreferenceProfile recipes ratings).cuisines, 0 < q.2)
      ∧ (∀ q ∈ (buildPreferenceProfile recipes ratings).difficulties, 0 < q.2)
      ∧ (∀ q ∈ (buildPreferenceProfile recipes ratings).tags, 0 < q.2)
      ∧ 0 ≤ calculateRecipeScore lg recipe
          (buildPreferenceProfile recipes ratings) := by
  have h1 : ∀ d ∈ ratings, 1 ≤ d.rating := fun d hd => (hr d hd).1
  obtain ⟨p1, p2, p3, p4⟩ := build_maps_pos recipes ratings h1
  refine ⟨p1, p2, p3, p4, ?_⟩
  rw [calculateRecipeScore_decomp]
  have g1 := ingredientScore_nonneg recipe _ p1
  have g2 := cuisineScore_nonneg recipe _ p2
  have g3 := difficultyScore_nonneg recipe _ p3
  have g4 := tagScore_nonneg recipe _ p4
  have g5 := nutritionScore_nonneg recipe (buildPreferenceProfile recipes ratings)
  have g6 := popularityScore_nonneg lg recipe havg hcnt hlg
  linarith

/-- C10 witness: the candidate `exB` scores at least 0 against the
profile built from rating `exA` with 5 (with the zero function standing
in for a logarithm that is nonnegative on `[1, ∞)`). -/
theorem claim10_witness :
    0 ≤ calculateRecipeScore (fun _ => 0) exB
        (buildPreferenceProfile [exA] [⟨("u"), ("A"), 5⟩]) :=
  (claim10_score_nonneg (fun _ => 0) [exA] [⟨("u"), ("A"), 5⟩] exB
    (by decide) (by decide) (by decide) (fun x hx => le_refl 0)).2.2.2.2

end SmartRecipe
